import Mathlib

/-!
Formal model of the Handwriting-OCR upload service
(`uploads.py`, `monitor.py`, `train.py`).

The Python code is shallowly embedded: the label store (a JSON document
mapping id to record) becomes an association list, the two image
directories become association lists from filename to byte content,
and each endpoint becomes a pure function threading the server state
explicitly.  Machine-level collaborators that the code merely calls
(SHA-256 via `hashlib`, the OCR engine, the clock, the filesystem's
ability to fail) are passed in as parameters, exactly at the point the
code consults them.  Floating point thresholds (`0.8`, `0.7`, `0.5`)
are modelled as the exact rationals the literals denote.
-/

namespace OCRService

/-! ### Python string primitives

Python strings are sequences of code points; the primitives used by the
service (`strip`, `lower`, `split`, `startswith`, `join`, `replace`,
slicing) are embedded here as structural recursions over `List Char`, so
that every definition evaluates by kernel reduction. -/

/-- Python `str.strip()` with no argument: remove leading and trailing
whitespace. -/
def pyStrip (s : String) : String :=
  String.mk (((s.data.dropWhile Char.isWhitespace).reverse.dropWhile
    Char.isWhitespace).reverse)

/-- Lowercase one code point (ASCII range, as the service's data uses). -/
def lowerChar (c : Char) : Char :=
  if 65 ≤ c.toNat ∧ c.toNat ≤ 90 then Char.ofNat (c.toNat + 32) else c

/-- Python `str.lower()`. -/
def pyLower (s : String) : String :=
  String.mk (s.data.map lowerChar)

/-- Python `str.startswith(pre)`. -/
def pyStartsWith (s pre : String) : Bool :=
  pre.data.isPrefixOf s.data

/-- Python `sep.join(parts)`. -/
def pyJoin (sep : String) : List String → String
  | [] => ""
  | [s] => s
  | s :: rest => s ++ sep ++ pyJoin sep rest

/-- Python `str.replace(a, b)` for a one-character pattern and
replacement (the only shape `_sanitize_text` uses). -/
def replaceChar (a b : Char) (s : String) : String :=
  String.mk (s.data.map (fun c => if c = a then b else c))

/-- Worker for `pySplit`: accumulate the current word (reversed). -/
def pySplitAux : List Char → List Char → List String
  | [], acc => if acc = [] then [] else [String.mk acc.reverse]
  | c :: cs, acc =>
    if c.isWhitespace then
      if acc = [] then pySplitAux cs []
      else String.mk acc.reverse :: pySplitAux cs []
    else pySplitAux cs (c :: acc)

/-- Python `str.split()` with no argument: split on whitespace runs,
dropping empty pieces. -/
def pySplit (s : String) : List String :=
  pySplitAux s.data []

/-- Python `s[:n]` by code points. -/
def pyTake (s : String) (n : Nat) : String :=
  String.mk (s.data.take n)

/-- One record of the label store (`labels.json`).  Field names follow the
keys written by `upload_file` in `uploads.py`; `approval_time` and
`rejection_time` only appear after a review transition, hence `Option`. -/
structure Record where
  id : String
  file : String
  origName : String
  providedText : String
  predictedText : String
  correctedText : String
  status : String
  notes : String
  uploadTime : String
  fileSize : Nat
  fileHash : String
  approvalTime : Option String := none
  rejectionTime : Option String := none
deriving DecidableEq, Repr

/-- The label store: Python dict from upload id to record, in insertion
order. -/
abbrev Labels := List (String × Record)

/-- A directory: filenames mapped to byte contents. -/
abbrev Dir := List (String × List Nat)

/-- In-memory server state: the labels dict plus the two image
directories (`data/images` pending area and `data/approved`). -/
structure ServerState where
  labels : Labels
  imagesDir : Dir
  approvedDir : Dir
deriving DecidableEq, Repr

/-- Python dict lookup `labels.get(k)`: first (and in practice only)
binding of the key. -/
def dictGet (l : Labels) (k : String) : Option Record :=
  (l.find? (fun p => p.1 == k)).map (fun p => p.2)

/-- Python dict store `labels[k] = v`: replaces the binding if the key is
present, otherwise appends at the end (dict insertion order). -/
def dictSet (l : Labels) (k : String) (v : Record) : Labels :=
  if l.any (fun p => p.1 == k) then
    l.map (fun p => if p.1 == k then (k, v) else p)
  else
    l ++ [(k, v)]

/-- Does a file of this name exist in the directory? -/
def dirHas (d : Dir) (n : String) : Bool :=
  d.any (fun p => p.1 == n)

/-- Read a file's bytes. -/
def dirGet (d : Dir) (n : String) : Option (List Nat) :=
  (d.find? (fun p => p.1 == n)).map (fun p => p.2)

/-- `open(path, "wb")` semantics: (over)write the file. -/
def dirWrite (d : Dir) (n : String) (b : List Nat) : Dir :=
  (n, b) :: d.filter (fun p => p.1 != n)

/-- `path.unlink()` / the source side of `rename`: remove the file. -/
def dirRemove (d : Dir) (n : String) : Dir :=
  d.filter (fun p => p.1 != n)

/-- `Config.MAX_FILE_SIZE` (default: 10485760 bytes). -/
def MAX_FILE_SIZE : Nat := 10485760

/-- `Config.ALLOWED_EXTENSIONS`. -/
def ALLOWED_EXTENSIONS : List String :=
  [".jpg", ".jpeg", ".png", ".bmp", ".tiff", ".webp"]

/-- Index of the last occurrence of `c` in the character list, if any. -/
def lastIndexOfChar (c : Char) (cs : List Char) : Option Nat :=
  ((List.range cs.length).filter (fun i => cs.getD i ' ' = c)).getLast?

/-- `pathlib.Path(p).suffix`: on the final path component `name` (the
characters after the last `/`), take `name[i:]` where `i` is the index
of the last dot, provided `0 < i < len(name) - 1`; otherwise the empty
string. -/
def pathSuffix (p : String) : String :=
  let name := (p.data.reverse.takeWhile (fun c => c ≠ '/')).reverse
  match lastIndexOfChar '.' name with
  | none => ""
  | some i => if 0 < i ∧ i + 1 < name.length then String.mk (name.drop i) else ""

/-- The MIME→extension table inlined in `upload_file`. -/
def mimeToExt : List (String × String) :=
  [("image/jpeg", ".jpg"), ("image/jpg", ".jpg"), ("image/png", ".png"),
   ("image/bmp", ".bmp"), ("image/tiff", ".tiff"), ("image/webp", ".webp")]

/-- Extension resolution of `upload_file` (`uploads.py` lines 346-364):
if the declared content type starts with `image/`, look it up in the MIME
table with default `.jpg`; otherwise fall back to the client filename's
lowercased suffix, replaced by `.jpg` when it is not an allowed
extension. -/
def resolveExt (contentType : Option String) (filename : Option String) : String :=
  let ct := contentType.getD ""
  if pyStartsWith ct "image/" then
    ((mimeToExt.find? (fun p => p.1 == ct)).map (fun p => p.2)).getD ".jpg"
  else
    let e := if filename.getD "" ≠ "" then pyLower (pathSuffix (filename.getD "")) else ".jpg"
    if e ∈ ALLOWED_EXTENSIONS then e else ".jpg"

/-- Rejection reasons of the upload endpoint, in the order the code can
raise them (`validate_file` then the body of `upload_file`). -/
inductive UploadError
  | noFilename
  | invalidType
  | declaredTooLarge
  | readFailed
  | emptyFile
  | tooLarge
  | saveFileFailed
  | saveMetadataFailed
deriving DecidableEq, Repr

/-- Response model of the upload endpoint. -/
structure UploadResponse where
  success : Bool
  uploadId : String
  predicted : Option String
  message : String
deriving DecidableEq, Repr

/-- The metadata dict built by `upload_file` for a fresh record. -/
def mkMetadata (freshId saveName origName : String) (text prediction : Option String)
    (now : String) (size : Nat) (fhash : String) : Record :=
  { id := freshId, file := saveName, origName := origName,
    providedText := text.getD "", predictedText := prediction.getD "",
    correctedText := "", status := "pending", notes := "",
    uploadTime := now, fileSize := size, fileHash := fhash }

/-- The `POST /upload` endpoint (`upload_file`, `uploads.py` lines
304-411), with `validate_file` inlined first, exactly as called.
Environment inputs are parameters: `hashFn` is `hashlib.sha256(..).hexdigest()`,
`freshId` the `uuid.uuid4()` drawn, `declaredSize` the optional
`file.size` attribute, `readResult` the outcome of `await file.read()`
(`none` = the read raised), `prediction` the outcome of `run_ocr`,
`now` the clock, and the two failure flags whether the file write or the
metadata save raises.  An error return leaves the state unchanged (on
metadata-save failure the code unlinks the just-written file). -/
def upload (hashFn : List Nat → String) (st : ServerState) (freshId : String)
    (filename contentType : Option String) (declaredSize : Option Nat)
    (readResult : Option (List Nat)) (text : Option String)
    (prediction : Option String) (now : String)
    (writeFails metaSaveFails : Bool) :
    Except UploadError (UploadResponse × ServerState) :=
  let name := filename.getD ""
  if name = "" then .error .noFilename
  else if pyLower (pathSuffix name) ∉ ALLOWED_EXTENSIONS then .error .invalidType
  else if MAX_FILE_SIZE < declaredSize.getD 0 then .error .declaredTooLarge
  else
    match readResult with
    | none => .error .readFailed
    | some contents =>
      if contents.length = 0 then .error .emptyFile
      else if MAX_FILE_SIZE < contents.length then .error .tooLarge
      else
        let fhash := hashFn contents
        match st.labels.find? (fun p => p.2.fileHash == fhash) with
        | some existing =>
          .ok ({ success := true, uploadId := existing.1,
                 predicted := some existing.2.predictedText,
                 message := "File already exists in system" }, st)
        | none =>
          let ext := resolveExt contentType filename
          let saveName := freshId ++ ext
          if writeFails then .error .saveFileFailed
          else if metaSaveFails then .error .saveMetadataFailed
          else
            let md := mkMetadata freshId saveName name text prediction now
                        contents.length fhash
            .ok ({ success := true, uploadId := freshId, predicted := prediction,
                   message := "Upload successful" },
                 { labels := dictSet st.labels freshId md,
                   imagesDir := dirWrite st.imagesDir saveName contents,
                   approvedDir := st.approvedDir })

/-- The conjunction of conditions under which `validate_file` and the
in-body size checks of `upload_file` accept a request: a truthy client
filename whose lowercased suffix is allow-listed, a declared size within
bound, and non-empty content within the maximum size. -/
def passesValidation (filename : Option String) (declaredSize : Option Nat)
    (contents : List Nat) : Prop :=
  filename.getD "" ≠ "" ∧
  pyLower (pathSuffix (filename.getD "")) ∈ ALLOWED_EXTENSIONS ∧
  ¬ MAX_FILE_SIZE < declaredSize.getD 0 ∧
  contents.length ≠ 0 ∧
  ¬ MAX_FILE_SIZE < contents.length

instance (filename : Option String) (declaredSize : Option Nat) (contents : List Nat) :
    Decidable (passesValidation filename declaredSize contents) := by
  unfold passesValidation
  infer_instance

/-- Outcomes of `POST /admin/approve`, in the order the code raises them. -/
inductive ApproveError
  | missingUploadId
  | missingCorrectedText
  | uploadNotFound
  | sourceFileNotFound
  | moveFailed
  | updateFailed
deriving DecidableEq, Repr

/-- Response model for admin operations. -/
structure AdminResponse where
  success : Bool
  message : String
deriving DecidableEq, Repr

/-- The `POST /admin/approve` endpoint (`admin_approve_upload`,
`uploads.py` lines 424-479).  `moveFails` is whether the pending→approved
rename raises, `saveFails` whether `save_labels` inside
`data_manager.update_upload` raises, and `moveBackFails` whether the
compensating rename in the `except` block raises (it is swallowed by a
bare `except: pass`).  When the save raises, the in-memory dict has
already been mutated by `labels[id].update(updates)`, which the model
reproduces.  The returned pair is (HTTP outcome, resulting state). -/
def approve (st : ServerState) (uploadId correctedText : String)
    (moveFails saveFails moveBackFails : Bool) (now : String) :
    Except ApproveError AdminResponse × ServerState :=
  if pyStrip uploadId = "" then (.error .missingUploadId, st)
  else if pyStrip correctedText = "" then (.error .missingCorrectedText, st)
  else
    let uid := pyStrip uploadId
    let ct := pyStrip correctedText
    match dictGet st.labels uid with
    | none => (.error .uploadNotFound, st)
    | some entry =>
      if dirHas st.imagesDir entry.file = false then (.error .sourceFileNotFound, st)
      else if moveFails then (.error .moveFailed, st)
      else
        let bytes := (dirGet st.imagesDir entry.file).getD []
        let images1 := dirRemove st.imagesDir entry.file
        let approved1 := dirWrite st.approvedDir entry.file bytes
        let entry1 : Record :=
          { entry with status := "approved", correctedText := ct,
                       notes := "approved by admin", approvalTime := some now }
        let labels1 := dictSet st.labels uid entry1
        if saveFails then
          if moveBackFails then
            (.error .updateFailed,
             { labels := labels1, imagesDir := images1, approvedDir := approved1 })
          else
            (.error .updateFailed,
             { labels := labels1,
               imagesDir := dirWrite images1 entry.file bytes,
               approvedDir := dirRemove approved1 entry.file })
        else
          (.ok { success := true, message := "Upload approved successfully" },
           { labels := labels1, imagesDir := images1, approvedDir := approved1 })

/-- The on-disk state of `labels.json` as `DataManager._load_labels` can
find it. -/
inductive DiskDoc
  | missing
  | malformed
  | unreadable
  | wellFormed (labels : Labels)
deriving DecidableEq, Repr

/-- Result of loading the label store: either the store (with the name
of the quarantine backup file, when one was made) or a propagated
exception. -/
inductive LoadOutcome
  | ok (labels : Labels) (backupMade : Option String)
  | raised
deriving DecidableEq, Repr

/-- `LABELS_FILE.with_suffix(f".backup.{ts}.json")` on `labels.json`. -/
def backupName (ts : String) : String :=
  "labels.backup." ++ ts ++ ".json"

/-- `DataManager._load_labels` (`uploads.py` lines 121-141): a missing
file yields an empty store; a JSON-malformed document is renamed aside
to a timestamped backup and an empty store is returned; any other read
failure is caught and yields an empty store; a well-formed document is
returned as-is.  The quarantine rename (`uploads.py` line 136) sits
unguarded inside the `except json.JSONDecodeError` handler — a sibling
`except` clause does not catch exceptions raised in a handler — so
`renameFails` models that rename raising, which propagates out of the
load. -/
def loadLabels (doc : DiskDoc) (renameFails : Bool) (ts : String) : LoadOutcome :=
  match doc with
  | .missing => .ok [] none
  | .malformed => if renameFails then .raised else .ok [] (some (backupName ts))
  | .unreadable => .ok [] none
  | .wellFormed l => .ok l none

/-- `run_ocr` (`uploads.py` lines 210-240) after the engine call: the
engine's answer is `none` when `results` or `results[0]` is falsy,
otherwise the list of `(text, confidence)` lines of `results[0]`.  Lines
with confidence strictly above `0.5` are kept, in order, and joined with
a single space; an empty kept list yields `None`. -/
def runOCR (useOCR : Bool) (results : Option (List (String × ℚ))) : Option String :=
  if useOCR = false then none
  else
    match results with
    | none => none
    | some [] => none
    | some rs =>
      let lines := (rs.filter (fun p => (1 : ℚ)/2 < p.2)).map (fun p => p.1)
      if lines.isEmpty then none else some (pyJoin " " lines)

/-- Spec-side restatement, written independently of `runOCR`: the texts
the collaborator's lines contribute to the result — confidence strictly
above the `0.5` threshold, order preserved.  Used to state the
characterization of `runOCR`. -/
def keptTexts : List (String × ℚ) → List String
  | [] => []
  | (t, c) :: rest => if (1 : ℚ)/2 < c then t :: keptTexts rest else keptTexts rest

/-- The approved records of a store snapshot, in store order
(`monitor.py` lines 152-155). -/
def approvedOf (labels : Labels) : List Record :=
  (labels.map (fun p => p.2)).filter (fun e => e.status == "approved")

/-- `samples_with_corrections` count: approved records whose
`corrected_text` strips to something non-empty (`monitor.py` 175-178). -/
def correctedCount (approved : List Record) : Nat :=
  (approved.filter (fun s => pyStrip s.correctedText ≠ "")).length

/-- `len(unique_texts)`: the number of distinct values of
`text.lower().strip()` over the corrected texts whose `strip()` is
truthy (`monitor.py` 186-187). -/
def uniqueTextCount (approved : List Record) : Nat :=
  ((((approved.map (fun s => s.correctedText)).filter
      (fun t => pyStrip t ≠ "")).map (fun t => pyStrip (pyLower t))).dedup).length

/-- The readiness report dict built by
`generate_training_readiness_report`. -/
structure ReadinessReport where
  ready : Bool
  totalSamples : Nat
  approvedSamples : Nat
  minimumRequired : Nat
  recommendations : List String
  qualityIssues : List String
  trainingDataExists : Bool
deriving DecidableEq, Repr

/-- Either the early `{"ready": False, "reason": "No data available"}`
return on an empty store, or the full report. -/
inductive ReadinessResult
  | noData
  | report (r : ReadinessReport)
deriving DecidableEq, Repr

/-- The `ready` flag of either result shape. -/
def readyFlag : ReadinessResult → Bool
  | .noData => false
  | .report r => r.ready

/-- The `quality_issues` list (empty on the no-data shape). -/
def qualityIssuesOf : ReadinessResult → List String
  | .noData => []
  | .report r => r.qualityIssues

/-- The `recommendations` list (empty on the no-data shape). -/
def recommendationsOf : ReadinessResult → List String
  | .noData => []
  | .report r => r.recommendations

/-- `OCRMonitor.generate_training_readiness_report` (`monitor.py` lines
145-200).  The float literals `0.8` and `0.7` are modelled as the exact
rationals `8/10` and `7/10`. -/
def generateReadinessReport (labels : Labels) (trainingDataExists : Bool) :
    ReadinessResult :=
  if labels.isEmpty then .noData
  else
    let approved := approvedOf labels
    let nA := approved.length
    let recs :=
      if nA < 100 then
        ["Need at least 100 approved samples. Currently have " ++ toString nA ++ "."]
      else []
    let qis :=
      (if (correctedCount approved : ℚ) < (nA : ℚ) * (8/10) then
         ["Less than 80% of approved samples have corrected text"] else [])
      ++
      (if (uniqueTextCount approved : ℚ) < (nA : ℚ) * (7/10) then
         ["Low text diversity - many duplicate texts detected"] else [])
    .report
      { ready := decide (100 ≤ nA) && qis.isEmpty,
        totalSamples := labels.length,
        approvedSamples := nA,
        minimumRequired := 100,
        recommendations := recs,
        qualityIssues := qis,
        trainingDataExists := trainingDataExists }

/-- Python `str.split()` with no argument: split on whitespace runs,
dropping empty pieces. -/
def sanitizeText (t : String) : String :=
  if t = "" then ""
  else
    let t1 := pyJoin " " (pySplit t)
    let t2 := replaceChar '\r' ' ' (replaceChar '\n' ' ' (replaceChar '\t' ' ' t1))
    let t3 := if 1000 < t2.length then pyTake t2 1000 else t2
    pyStrip t3

/-- `TrainingDataPreparer._get_best_text` (`train.py` lines 131-151):
first of corrected, provided, predicted text that is truthy and strips
truthy, sanitized; else empty. -/
def bestText (e : Record) : String :=
  if e.correctedText ≠ "" ∧ pyStrip e.correctedText ≠ "" then sanitizeText e.correctedText
  else if e.providedText ≠ "" ∧ pyStrip e.providedText ≠ "" then sanitizeText e.providedText
  else if e.predictedText ≠ "" ∧ pyStrip e.predictedText ≠ "" then sanitizeText e.predictedText
  else ""

/-- `TrainingDataPreparer._validate_image_file` (`train.py` lines
80-103): the file exists in the approved directory, is non-empty, and
bears one of the valid image extensions (train.py re-declares the same
set as `Config.ALLOWED_EXTENSIONS`). -/
def validImageFile (approvedDir : Dir) (name : String) : Bool :=
  match dirGet approvedDir name with
  | none => false
  | some bytes =>
    decide (bytes.length ≠ 0) && decide (pyLower (pathSuffix name) ∈ ALLOWED_EXTENSIONS)

/-- The line contributed by one approved entry of the preparation loop
(`train.py` lines 205-239), or `none` when the entry is skipped.
`copyFails` models `_copy_with_verification` raising or failing
verification for a given filename. -/
def trainLine (approvedDir : Dir) (copyFails : String → Bool) (e : Record) :
    Option String :=
  if e.file = "" then none
  else
    let text := bestText e
    if text = "" then none
    else if validImageFile approvedDir e.file = false then none
    else if copyFails e.file then none
    else some (e.file ++ "\t" ++ text)

/-- The `train_list` accumulated by `prepare_training_data`: one line per
approved entry that survives every skip. -/
def trainList (labels : Labels) (approvedDir : Dir) (copyFails : String → Bool) :
    List String :=
  (approvedOf labels).filterMap (trainLine approvedDir copyFails)

/-- What `prepare_training_data` leaves behind: the contents written to
`train.txt` and `val.txt` (`none` = not written) and the returned pair
`(successful_copies, total_approved)`. -/
structure PrepareOutcome where
  trainTxt : Option String
  valTxt : Option String
  successful : Nat
  totalApproved : Nat
deriving DecidableEq, Repr

/-- `TrainingDataPreparer.prepare_training_data` (`train.py` lines
186-263) after the labels are loaded: build `train_list`, write it to
`train.txt` (failure aborts with `(0, total)` and no `val.txt`), then
write the same joined string to `val.txt` (failure only logs). -/
def prepareTrainingData (labels : Labels) (approvedDir : Dir)
    (copyFails : String → Bool) (trainWriteFails valWriteFails : Bool) :
    PrepareOutcome :=
  let tl := trainList labels approvedDir copyFails
  if trainWriteFails then
    { trainTxt := none, valTxt := none, successful := 0,
      totalApproved := (approvedOf labels).length }
  else
    { trainTxt := some (pyJoin "\n" tl),
      valTxt := if valWriteFails then none else some (pyJoin "\n" tl),
      successful := tl.length,
      totalApproved := (approvedOf labels).length }

/-! ### Helper lemmas about the store and directory operations -/

theorem dirHas_dirWrite_self (d : Dir) (n : String) (b : List Nat) :
    dirHas (dirWrite d n b) n = true := by
  simp [dirHas, dirWrite]

theorem any_key_filter_ne (d : Dir) (n : String) :
    (d.filter (fun p => p.1 != n)).any (fun p => p.1 == n) = false := by
  induction d with
  | nil => rfl
  | cons p t ih =>
    by_cases hp : p.1 = n
    · rw [List.filter_cons_of_neg (by simp [hp])]
      exact ih
    · rw [List.filter_cons_of_pos (by simp [hp]), List.any_cons, ih]
      simp [hp]

theorem dirHas_dirRemove_self (d : Dir) (n : String) :
    dirHas (dirRemove d n) n = false :=
  any_key_filter_ne d n

theorem any_key_filter_other (d : Dir) (n m : String) (h : m ≠ n) :
    (d.filter (fun p => p.1 != n)).any (fun p => p.1 == m) =
      d.any (fun p => p.1 == m) := by
  induction d with
  | nil => rfl
  | cons p t ih =>
    by_cases hp : p.1 = n
    · rw [List.filter_cons_of_neg (by simp [hp]), List.any_cons, ih]
      have hpm : (p.1 == m) = false := by
        rw [hp]
        exact beq_eq_false_iff_ne.mpr (Ne.symm h)
      rw [hpm, Bool.false_or]
    · rw [List.filter_cons_of_pos (by simp [hp]), List.any_cons, List.any_cons, ih]

theorem dirHas_dirWrite_ne (d : Dir) (n m : String) (b : List Nat) (h : m ≠ n) :
    dirHas (dirWrite d n b) m = dirHas d m := by
  show ((n, b) :: d.filter (fun p => p.1 != n)).any (fun p => p.1 == m) = dirHas d m
  rw [List.any_cons]
  have h1 : (n == m) = false := beq_eq_false_iff_ne.mpr (Ne.symm h)
  rw [h1, Bool.false_or]
  exact any_key_filter_other d n m h

theorem find?_key_map_set (l : Labels) (k : String) (v : Record)
    (ha : l.any (fun p => p.1 == k) = true) :
    (l.map (fun p => if p.1 == k then (k, v) else p)).find?
      (fun p => p.1 == k) = some (k, v) := by
  induction l with
  | nil => simp at ha
  | cons p t ih =>
    rw [List.map_cons]
    by_cases hp : p.1 = k
    · rw [if_pos (by simp [hp]), List.find?_cons_of_pos _ (by simp)]
    · rw [List.any_cons] at ha
      have ha' : t.any (fun p => p.1 == k) = true := by
        simpa [beq_eq_false_iff_ne.mpr hp] using ha
      rw [if_neg (by simp [hp]), List.find?_cons_of_neg _ (by simp [hp]), ih ha']

theorem dictGet_dictSet_self (l : Labels) (k : String) (v : Record) :
    dictGet (dictSet l k v) k = some v := by
  by_cases ha : l.any (fun p => p.1 == k) = true
  · rw [dictSet, if_pos ha, dictGet, find?_key_map_set l k v ha]
    rfl
  · have ha' : l.any (fun p => p.1 == k) = false := Bool.eq_false_iff.mpr ha
    rw [dictSet, if_neg ha, dictGet, List.find?_append]
    have hl : l.find? (fun p => p.1 == k) = none := by
      rw [List.find?_eq_none]
      exact List.any_eq_false.mp ha'
    rw [hl, Option.none_or,
      List.find?_cons_of_pos (p := fun q : String × Record => q.1 == k) _ (by simp)]
    rfl

theorem find?_hash_map_set (l : Labels) (k : String) (v : Record) (h : String)
    (hnone : l.find? (fun p => p.2.fileHash == h) = none)
    (hv : (v.fileHash == h) = true)
    (ha : l.any (fun p => p.1 == k) = true) :
    (l.map (fun p => if p.1 == k then (k, v) else p)).find?
      (fun p => p.2.fileHash == h) = some (k, v) := by
  induction l with
  | nil => simp at ha
  | cons p t ih =>
    rw [List.find?_eq_none] at hnone
    have hph : ¬ (((fun q : String × Record => q.2.fileHash == h) p) = true) := by
      simpa using hnone p (by simp)
    have htail : t.find? (fun p => p.2.fileHash == h) = none := by
      rw [List.find?_eq_none]
      intro q hq
      exact hnone q (by simp [hq])
    rw [List.map_cons]
    by_cases hp : p.1 = k
    · rw [if_pos (by simp [hp]),
        List.find?_cons_of_pos (p := fun q : String × Record => q.2.fileHash == h) _ hv]
    · rw [List.any_cons] at ha
      have ha' : t.any (fun p => p.1 == k) = true := by
        simpa [beq_eq_false_iff_ne.mpr hp] using ha
      rw [if_neg (by simp [hp]),
        List.find?_cons_of_neg (p := fun q : String × Record => q.2.fileHash == h) _ hph,
        ih htail ha']

theorem map_setFn_of_not_any (l : Labels) (k : String) (v : Record)
    (h : l.any (fun p => p.1 == k) = false) :
    l.map (fun p => if p.1 == k then (k, v) else p) = l := by
  induction l with
  | nil => rfl
  | cons p t ih =>
    rw [List.any_cons, Bool.or_eq_false_iff] at h
    rw [List.map_cons, if_neg (by simp [h.1]), ih h.2]

theorem find?_hash_dictSet_hit (l : Labels) (k : String) (v : Record) (h : String)
    (hnone : l.find? (fun p => p.2.fileHash == h) = none)
    (hv : v.fileHash = h) :
    (dictSet l k v).find? (fun p => p.2.fileHash == h) = some (k, v) := by
  by_cases ha : l.any (fun p => p.1 == k) = true
  · rw [dictSet, if_pos ha, find?_hash_map_set l k v h hnone (by simp [hv]) ha]
  · rw [dictSet, if_neg ha, List.find?_append, hnone, Option.none_or,
      List.find?_cons_of_pos (p := fun q : String × Record => q.2.fileHash == h) _
        (by simp [hv])]

theorem find?_hash_dictSet_miss (l : Labels) (k : String) (v : Record) (h : String)
    (hnone : l.find? (fun p => p.2.fileHash == h) = none)
    (hv : v.fileHash ≠ h) :
    (dictSet l k v).find? (fun p => p.2.fileHash == h) = none := by
  have hv' : ¬ ((v.fileHash == h) = true) := by simpa using hv
  by_cases ha : l.any (fun p => p.1 == k) = true
  · rw [dictSet, if_pos ha, List.find?_eq_none]
    intro q hq
    rw [List.mem_map] at hq
    obtain ⟨p, hpmem, hpq⟩ := hq
    rw [List.find?_eq_none] at hnone
    by_cases hp : p.1 = k
    · rw [if_pos (by simp [hp])] at hpq
      simpa [← hpq] using hv'
    · rw [if_neg (by simp [hp])] at hpq
      simpa [← hpq] using hnone p hpmem
  · rw [dictSet, if_neg ha, List.find?_append, hnone, Option.none_or,
      List.find?_cons_of_neg (p := fun q : String × Record => q.2.fileHash == h) _
        hv']
    rfl

theorem append_ne_of_ne_of_length_eq (a b e₁ e₂ : String)
    (hne : a ≠ b) (hlen : a.length = b.length) : a ++ e₁ ≠ b ++ e₂ := by
  intro hcon
  apply hne
  have hd : a.data ++ e₁.data = b.data ++ e₂.data := by
    have h2 := congrArg String.data hcon
    rw [String.data_append, String.data_append] at h2
    exact h2
  have hab : a.data = b.data :=
    (List.append_inj hd (by exact hlen)).1
  exact congrArg String.mk hab

/-! ### Claim C2: a successful approve leaves the file in exactly one
directory and updates the record -/

/-- Claim C2: for every record id present in the store, if
`approve(id, corrected_text)` returns successfully then afterwards the
record's file exists in the approved directory and not in the pending
directory — exactly one of the two locations — and the record has
status `approved`, `corrected_text` set to the trimmed text, and
`approval_time` set. -/
theorem approve_success_exactly_one_location (st : ServerState)
    (uploadId correctedText : String) (moveFails saveFails moveBackFails : Bool)
    (now : String) (resp : AdminResponse) (st' : ServerState) (entry : Record)
    (hentry : dictGet st.labels (pyStrip uploadId) = some entry)
    (h : approve st uploadId correctedText moveFails saveFails moveBackFails now
        = (.ok resp, st')) :
    dirHas st'.approvedDir entry.file = true ∧
    dirHas st'.imagesDir entry.file = false ∧
    dictGet st'.labels (pyStrip uploadId) = some
      { entry with
          status := "approved", correctedText := pyStrip correctedText,
          notes := "approved by admin", approvalTime := some now } ∧
    pyStrip correctedText ≠ "" := by
  by_cases h1 : pyStrip uploadId = ""
  · rw [approve, if_pos h1] at h
    simp at h
  by_cases h2 : pyStrip correctedText = ""
  · rw [approve, if_neg h1, if_pos h2] at h
    simp at h
  rw [approve, if_neg h1, if_neg h2] at h
  simp only [hentry] at h
  by_cases h3 : dirHas st.imagesDir entry.file = false
  · rw [if_pos h3] at h
    simp at h
  rw [if_neg h3] at h
  cases moveFails with
  | true => simp at h
  | false =>
    simp only [Bool.false_eq_true, if_false] at h
    cases saveFails with
    | true => simp only [if_pos] at h; cases moveBackFails <;> simp at h
    | false =>
      simp only [Bool.false_eq_true, if_false] at h
      rw [Prod.mk.injEq] at h
      obtain ⟨hres, hst⟩ := h
      subst hst
      refine ⟨dirHas_dirWrite_self _ _ _, dirHas_dirRemove_self _ _, ?_, h2⟩
      exact dictGet_dictSet_self _ _ _

/-- Witness for C2: approving a concrete one-record store. -/
theorem approve_success_exactly_one_location_witness :
    (dictGet [("u1", mkMetadata "u1" "u1.jpg" "a.png" none none "t0" 1 "h1")]
        (pyStrip "u1")
      = some (mkMetadata "u1" "u1.jpg" "a.png" none none "t0" 1 "h1")) ∧
    (dirHas ([("u1.jpg", [9])] : Dir)
        (mkMetadata "u1" "u1.jpg" "a.png" none none "t0" 1 "h1").file = true ∧
     dirHas ([] : Dir)
        (mkMetadata "u1" "u1.jpg" "a.png" none none "t0" 1 "h1").file = false ∧
     dictGet (dictSet [("u1", mkMetadata "u1" "u1.jpg" "a.png" none none "t0" 1 "h1")]
         (pyStrip "u1")
         { mkMetadata "u1" "u1.jpg" "a.png" none none "t0" 1 "h1" with
             status := "approved", correctedText := pyStrip " fixed ",
             notes := "approved by admin", approvalTime := some "T" })
         (pyStrip "u1")
      = some
        { mkMetadata "u1" "u1.jpg" "a.png" none none "t0" 1 "h1" with
            status := "approved", correctedText := pyStrip " fixed ",
            notes := "approved by admin", approvalTime := some "T" } ∧
     pyStrip " fixed " ≠ "") := by
  refine ⟨by rfl, ?_⟩
  exact approve_success_exactly_one_location
    ⟨[("u1", mkMetadata "u1" "u1.jpg" "a.png" none none "t0" 1 "h1")],
      [("u1.jpg", [9])], []⟩
    "u1" " fixed " false false false "T"
    { success := true, message := "Upload approved successfully" }
    ⟨dictSet [("u1", mkMetadata "u1" "u1.jpg" "a.png" none none "t0" 1 "h1")]
        (pyStrip "u1")
        { mkMetadata "u1" "u1.jpg" "a.png" none none "t0" 1 "h1" with
            status := "approved", correctedText := pyStrip " fixed ",
            notes := "approved by admin", approvalTime := some "T" },
      dirRemove [("u1.jpg", [9])] "u1.jpg",
      dirWrite [] "u1.jpg" [9]⟩
    (mkMetadata "u1" "u1.jpg" "a.png" none none "t0" 1 "h1")
    (by rfl) (by rfl)

/-! ### Claim C6: metadata-update failure after the move is compensated -/

/-- Claim C6: when the metadata update raises after the file was moved
pending→approved, the workflow attempts to move the file back
(best-effort: the compensating rename may itself fail and is swallowed)
and surfaces an error to the caller rather than reporting success. -/
theorem approve_savefail_compensates (st : ServerState)
    (uploadId correctedText : String) (moveBackFails : Bool) (now : String)
    (entry : Record)
    (h1 : pyStrip uploadId ≠ "") (h2 : pyStrip correctedText ≠ "")
    (hentry : dictGet st.labels (pyStrip uploadId) = some entry)
    (hfile : dirHas st.imagesDir entry.file = true) :
    (approve st uploadId correctedText false true moveBackFails now).1
      = .error .updateFailed ∧
    (moveBackFails = false →
      dirHas (approve st uploadId correctedText false true moveBackFails now).2.imagesDir
        entry.file = true ∧
      dirHas (approve st uploadId correctedText false true moveBackFails now).2.approvedDir
        entry.file = false) := by
  rw [approve, if_neg h1, if_neg h2]
  simp only [hentry]
  rw [if_neg (by simp [hfile])]
  cases moveBackFails with
  | true => simp
  | false =>
    simp only [Bool.false_eq_true, if_false]
    refine ⟨rfl, fun _ => ⟨dirHas_dirWrite_self _ _ _, dirHas_dirRemove_self _ _⟩⟩

/-- Witness for C6: a concrete approve in which the store write raises
after the move; the file is back in the pending area and the call
errors. -/
theorem approve_savefail_compensates_witness :
    (pyStrip "u1" ≠ "" ∧ pyStrip " fixed " ≠ "" ∧
     dictGet [("u1", mkMetadata "u1" "u1.jpg" "a.png" none none "t0" 1 "h1")]
        (pyStrip "u1")
       = some (mkMetadata "u1" "u1.jpg" "a.png" none none "t0" 1 "h1") ∧
     dirHas ([("u1.jpg", [9])] : Dir)
        (mkMetadata "u1" "u1.jpg" "a.png" none none "t0" 1 "h1").file = true) ∧
    ((approve ⟨[("u1", mkMetadata "u1" "u1.jpg" "a.png" none none "t0" 1 "h1")],
        [("u1.jpg", [9])], []⟩ "u1" " fixed " false true false "T").1
       = .error .updateFailed ∧
     (false = false →
       dirHas (approve ⟨[("u1", mkMetadata "u1" "u1.jpg" "a.png" none none "t0" 1 "h1")],
           [("u1.jpg", [9])], []⟩ "u1" " fixed " false true false "T").2.imagesDir
         (mkMetadata "u1" "u1.jpg" "a.png" none none "t0" 1 "h1").file = true ∧
       dirHas (approve ⟨[("u1", mkMetadata "u1" "u1.jpg" "a.png" none none "t0" 1 "h1")],
           [("u1.jpg", [9])], []⟩ "u1" " fixed " false true false "T").2.approvedDir
         (mkMetadata "u1" "u1.jpg" "a.png" none none "t0" 1 "h1").file = false)) := by
  refine ⟨⟨by decide, by decide, by rfl, by rfl⟩, ?_⟩
  exact approve_savefail_compensates
    ⟨[("u1", mkMetadata "u1" "u1.jpg" "a.png" none none "t0" 1 "h1")],
      [("u1.jpg", [9])], []⟩
    "u1" " fixed " false "T"
    (mkMetadata "u1" "u1.jpg" "a.png" none none "t0" 1 "h1")
    (by decide) (by decide) (by rfl) (by rfl)

/-! ### Reduction lemmas for the upload endpoint -/

theorem upload_dedup_eq (hashFn : List Nat → String) (st : ServerState)
    (freshId : String) (filename contentType : Option String)
    (declaredSize : Option Nat) (contents : List Nat)
    (text prediction : Option String) (now : String)
    (writeFails metaSaveFails : Bool) (eid : String) (ed : Record)
    (hv : passesValidation filename declaredSize contents)
    (hfind : st.labels.find? (fun p => p.2.fileHash == hashFn contents)
      = some (eid, ed)) :
    upload hashFn st freshId filename contentType declaredSize (some contents)
      text prediction now writeFails metaSaveFails =
    .ok ({ success := true, uploadId := eid, predicted := some ed.predictedText,
           message := "File already exists in system" }, st) := by
  obtain ⟨h1, h2, h3, h4, h5⟩ := hv
  rw [upload]
  simp only [if_neg h1, if_neg (not_not_intro h2), if_neg h3, if_neg h4,
    if_neg h5, hfind]

theorem upload_fresh_eq (hashFn : List Nat → String) (st : ServerState)
    (freshId : String) (filename contentType : Option String)
    (declaredSize : Option Nat) (contents : List Nat)
    (text prediction : Option String) (now : String)
    (hv : passesValidation filename declaredSize contents)
    (hfind : st.labels.find? (fun p => p.2.fileHash == hashFn contents) = none) :
    upload hashFn st freshId filename contentType declaredSize (some contents)
      text prediction now false false =
    .ok ({ success := true, uploadId := freshId, predicted := prediction,
           message := "Upload successful" },
         { labels := dictSet st.labels freshId
             (mkMetadata freshId (freshId ++ resolveExt contentType filename)
               (filename.getD "") text prediction now contents.length
               (hashFn contents)),
           imagesDir := dirWrite st.imagesDir
             (freshId ++ resolveExt contentType filename) contents,
           approvedDir := st.approvedDir }) := by
  obtain ⟨h1, h2, h3, h4, h5⟩ := hv
  rw [upload]
  simp only [if_neg h1, if_neg (not_not_intro h2), if_neg h3, if_neg h4,
    if_neg h5, hfind, Bool.false_eq_true, if_false]

/-! ### Claim C1: hash-based deduplication -/

/-- Claim C1: an upload whose bytes hash-match an existing record returns
that record's id and predicted text without adding a record or writing a
file; hence re-uploading byte-identical content returns the same id, and
valid uploads of distinct content (distinct hashes, fresh distinct
equal-length ids) yield distinct ids and distinct stored files.  The
SHA-256 collaborator is the `hashFn` parameter; the distinctness clause
assumes the two contents hash differently, which is the
collision-freeness the code relies on. -/
theorem upload_dedup_idempotent_distinct (hashFn : List Nat → String)
    (st : ServerState) (id₁ id₂ : String) (fn₁ fn₂ ctm₁ ctm₂ : Option String)
    (ds₁ ds₂ : Option Nat) (c₁ c₂ : List Nat) (tx₁ tx₂ pr₁ pr₂ : Option String)
    (now₁ now₂ : String)
    (hv₁ : passesValidation fn₁ ds₁ c₁)
    (hv₂ : passesValidation fn₂ ds₂ c₂)
    (hfresh₁ : st.labels.find? (fun p => p.2.fileHash == hashFn c₁) = none)
    (hfresh₂ : st.labels.find? (fun p => p.2.fileHash == hashFn c₂) = none)
    (hhash : hashFn c₁ ≠ hashFn c₂)
    (hid : id₁ ≠ id₂) (hlen : id₁.length = id₂.length) :
    upload hashFn st id₁ fn₁ ctm₁ ds₁ (some c₁) tx₁ pr₁ now₁ false false =
      .ok ({ success := true, uploadId := id₁, predicted := pr₁,
             message := "Upload successful" },
           { labels := dictSet st.labels id₁
               (mkMetadata id₁ (id₁ ++ resolveExt ctm₁ fn₁) (fn₁.getD "")
                 tx₁ pr₁ now₁ c₁.length (hashFn c₁)),
             imagesDir := dirWrite st.imagesDir (id₁ ++ resolveExt ctm₁ fn₁) c₁,
             approvedDir := st.approvedDir }) ∧
    upload hashFn
      { labels := dictSet st.labels id₁
          (mkMetadata id₁ (id₁ ++ resolveExt ctm₁ fn₁) (fn₁.getD "")
            tx₁ pr₁ now₁ c₁.length (hashFn c₁)),
        imagesDir := dirWrite st.imagesDir (id₁ ++ resolveExt ctm₁ fn₁) c₁,
        approvedDir := st.approvedDir }
      id₂ fn₂ ctm₂ ds₂ (some c₁) tx₂ pr₂ now₂ false false =
      .ok ({ success := true, uploadId := id₁,
             predicted := some (pr₁.getD ""),
             message := "File already exists in system" },
           { labels := dictSet st.labels id₁
               (mkMetadata id₁ (id₁ ++ resolveExt ctm₁ fn₁) (fn₁.getD "")
                 tx₁ pr₁ now₁ c₁.length (hashFn c₁)),
             imagesDir := dirWrite st.imagesDir (id₁ ++ resolveExt ctm₁ fn₁) c₁,
             approvedDir := st.approvedDir }) ∧
    upload hashFn
      { labels := dictSet st.labels id₁
          (mkMetadata id₁ (id₁ ++ resolveExt ctm₁ fn₁) (fn₁.getD "")
            tx₁ pr₁ now₁ c₁.length (hashFn c₁)),
        imagesDir := dirWrite st.imagesDir (id₁ ++ resolveExt ctm₁ fn₁) c₁,
        approvedDir := st.approvedDir }
      id₂ fn₂ ctm₂ ds₂ (some c₂) tx₂ pr₂ now₂ false false =
      .ok ({ success := true, uploadId := id₂, predicted := pr₂,
             message := "Upload successful" },
           { labels := dictSet
               (dictSet st.labels id₁
                 (mkMetadata id₁ (id₁ ++ resolveExt ctm₁ fn₁) (fn₁.getD "")
                   tx₁ pr₁ now₁ c₁.length (hashFn c₁)))
               id₂
               (mkMetadata id₂ (id₂ ++ resolveExt ctm₂ fn₂) (fn₂.getD "")
                 tx₂ pr₂ now₂ c₂.length (hashFn c₂)),
             imagesDir := dirWrite
               (dirWrite st.imagesDir (id₁ ++ resolveExt ctm₁ fn₁) c₁)
               (id₂ ++ resolveExt ctm₂ fn₂) c₂,
             approvedDir := st.approvedDir }) ∧
    id₂ ≠ id₁ ∧
    id₂ ++ resolveExt ctm₂ fn₂ ≠ id₁ ++ resolveExt ctm₁ fn₁ ∧
    dirHas (dirWrite
        (dirWrite st.imagesDir (id₁ ++ resolveExt ctm₁ fn₁) c₁)
        (id₂ ++ resolveExt ctm₂ fn₂) c₂)
      (id₁ ++ resolveExt ctm₁ fn₁) = true ∧
    dirHas (dirWrite
        (dirWrite st.imagesDir (id₁ ++ resolveExt ctm₁ fn₁) c₁)
        (id₂ ++ resolveExt ctm₂ fn₂) c₂)
      (id₂ ++ resolveExt ctm₂ fn₂) = true := by
  have hmd₁ : (mkMetadata id₁ (id₁ ++ resolveExt ctm₁ fn₁) (fn₁.getD "")
      tx₁ pr₁ now₁ c₁.length (hashFn c₁)).fileHash = hashFn c₁ := rfl
  have hv₂c₁ : passesValidation fn₂ ds₂ c₁ :=
    ⟨hv₂.1, hv₂.2.1, hv₂.2.2.1, hv₁.2.2.2.1, hv₁.2.2.2.2⟩
  have hnames : id₂ ++ resolveExt ctm₂ fn₂ ≠ id₁ ++ resolveExt ctm₁ fn₁ :=
    append_ne_of_ne_of_length_eq id₂ id₁ _ _ (Ne.symm hid) hlen.symm
  refine ⟨upload_fresh_eq hashFn st id₁ fn₁ ctm₁ ds₁ c₁ tx₁ pr₁ now₁ hv₁ hfresh₁,
    ?_, ?_, Ne.symm hid, hnames, ?_, ?_⟩
  · exact upload_dedup_eq hashFn
      { labels := dictSet st.labels id₁
          (mkMetadata id₁ (id₁ ++ resolveExt ctm₁ fn₁) (fn₁.getD "")
            tx₁ pr₁ now₁ c₁.length (hashFn c₁)),
        imagesDir := dirWrite st.imagesDir (id₁ ++ resolveExt ctm₁ fn₁) c₁,
        approvedDir := st.approvedDir }
      id₂ fn₂ ctm₂ ds₂ c₁ tx₂ pr₂ now₂ false false
      id₁ _ hv₂c₁
      (find?_hash_dictSet_hit st.labels id₁ _ (hashFn c₁) hfresh₁ hmd₁)
  · exact upload_fresh_eq hashFn
      { labels := dictSet st.labels id₁
          (mkMetadata id₁ (id₁ ++ resolveExt ctm₁ fn₁) (fn₁.getD "")
            tx₁ pr₁ now₁ c₁.length (hashFn c₁)),
        imagesDir := dirWrite st.imagesDir (id₁ ++ resolveExt ctm₁ fn₁) c₁,
        approvedDir := st.approvedDir }
      id₂ fn₂ ctm₂ ds₂ c₂ tx₂ pr₂ now₂ hv₂
      (find?_hash_dictSet_miss st.labels id₁ _ (hashFn c₂) hfresh₂
        (by rw [hmd₁]; exact hhash))
  · rw [dirHas_dirWrite_ne _ _ _ _ (Ne.symm hnames)]
    exact dirHas_dirWrite_self _ _ _
  · exact dirHas_dirWrite_self _ _ _

/-- Witness for C1: two fresh uploads of distinct byte strings and a
re-upload of the first, on an initially empty store. -/
theorem upload_dedup_idempotent_distinct_witness :
    (passesValidation (some "a.png") none [1] ∧
     passesValidation (some "b.png") none [1, 1] ∧
     (fun c : List Nat => String.mk (List.replicate c.length 'a')) [1] ≠
       (fun c : List Nat => String.mk (List.replicate c.length 'a')) [1, 1] ∧
     ("1111" : String) ≠ "2222" ∧
     ("1111" : String).length = ("2222" : String).length) ∧
    (upload (fun c => String.mk (List.replicate c.length 'a')) ⟨[], [], []⟩
        "1111" (some "a.png") none none (some [1]) none none "t" false false =
      .ok ({ success := true, uploadId := "1111", predicted := none,
             message := "Upload successful" },
           ⟨[("1111", mkMetadata "1111" "1111.png" "a.png" none none "t" 1 "a")],
            [("1111.png", [1])], []⟩) ∧
     upload (fun c => String.mk (List.replicate c.length 'a'))
        ⟨[("1111", mkMetadata "1111" "1111.png" "a.png" none none "t" 1 "a")],
         [("1111.png", [1])], []⟩
        "2222" (some "b.png") none none (some [1]) none none "t" false false =
      .ok ({ success := true, uploadId := "1111", predicted := some "",
             message := "File already exists in system" },
           ⟨[("1111", mkMetadata "1111" "1111.png" "a.png" none none "t" 1 "a")],
            [("1111.png", [1])], []⟩) ∧
     upload (fun c => String.mk (List.replicate c.length 'a'))
        ⟨[("1111", mkMetadata "1111" "1111.png" "a.png" none none "t" 1 "a")],
         [("1111.png", [1])], []⟩
        "2222" (some "b.png") none none (some [1, 1]) none none "t" false false =
      .ok ({ success := true, uploadId := "2222", predicted := none,
             message := "Upload successful" },
           ⟨[("1111", mkMetadata "1111" "1111.png" "a.png" none none "t" 1 "a"),
             ("2222", mkMetadata "2222" "2222.png" "b.png" none none "t" 2 "aa")],
            [("2222.png", [1, 1]), ("1111.png", [1])], []⟩) ∧
     ("2222" : String) ≠ "1111" ∧
     ("2222.png" : String) ≠ "1111.png" ∧
     dirHas [("2222.png", [1, 1]), ("1111.png", [1])] "1111.png" = true ∧
     dirHas [("2222.png", [1, 1]), ("1111.png", [1])] "2222.png" = true) := by
  refine ⟨⟨by decide, by decide, by decide, by decide, by decide⟩, ?_⟩
  exact upload_dedup_idempotent_distinct
    (fun c => String.mk (List.replicate c.length 'a'))
    ⟨[], [], []⟩ "1111" "2222" (some "a.png") (some "b.png") none none none none
    [1] [1, 1] none none none none "t" "t"
    (by decide) (by decide) (by rfl) (by rfl) (by decide) (by decide) (by decide)

/-! ### Claim C4: extension resolution -/

/-- Claim C4 counterexample: an upload with the unrecognized image
content type `image/gif` and a filename bearing the allowed extension
`.png` is stored as `<id>.jpg` — the filename's extension is NOT used,
contradicting the claimed fallback order. -/
theorem upload_extension_counterexample :
    upload (fun c => String.mk (List.replicate c.length 'a')) ⟨[], [], []⟩ "id1"
      (some "scan.png") (some "image/gif") none (some [1]) none none "t"
      false false =
      .ok ({ success := true, uploadId := "id1", predicted := none,
             message := "Upload successful" },
           ⟨[("id1", mkMetadata "id1" "id1.jpg" "scan.png" none none "t" 1 "a")],
            [("id1.jpg", [1])], []⟩) ∧
    pyLower (pathSuffix "scan.png") = ".png" ∧
    ".png" ∈ ALLOWED_EXTENSIONS ∧
    resolveExt (some "image/gif") (some "scan.png") = ".jpg" ∧
    (".jpg" : String) ≠ ".png" :=
  ⟨by rfl, by rfl, by decide, by rfl, by decide⟩

/-- Claim C4 (amended): the stored filename is always `<id>.<ext>`
(never the original client filename); when the declared content type is
an `image/*` type, `ext` comes from the MIME table with default `.jpg`
even if the type is unrecognized; the client filename's lowercased
extension is used only when the content type is absent or not an
`image/*` type, and only if allow-listed, else the default `.jpg`. -/
theorem upload_extension_resolution (hashFn : List Nat → String)
    (st : ServerState) (freshId : String) (filename contentType : Option String)
    (declaredSize : Option Nat) (contents : List Nat)
    (text prediction : Option String) (now : String)
    (hv : passesValidation filename declaredSize contents)
    (hfind : st.labels.find? (fun p => p.2.fileHash == hashFn contents) = none) :
    upload hashFn st freshId filename contentType declaredSize (some contents)
      text prediction now false false =
      .ok ({ success := true, uploadId := freshId, predicted := prediction,
             message := "Upload successful" },
           { labels := dictSet st.labels freshId
               (mkMetadata freshId (freshId ++ resolveExt contentType filename)
                 (filename.getD "") text prediction now contents.length
                 (hashFn contents)),
             imagesDir := dirWrite st.imagesDir
               (freshId ++ resolveExt contentType filename) contents,
             approvedDir := st.approvedDir }) ∧
    (∀ ct e, contentType = some ct → pyStartsWith ct "image/" = true →
      mimeToExt.find? (fun p => p.1 == ct) = some (ct, e) →
      resolveExt contentType filename = e) ∧
    (∀ ct, contentType = some ct → pyStartsWith ct "image/" = true →
      mimeToExt.find? (fun p => p.1 == ct) = none →
      resolveExt contentType filename = ".jpg") ∧
    (pyStartsWith (contentType.getD "") "image/" = false →
      resolveExt contentType filename =
        if pyLower (pathSuffix (filename.getD "")) ∈ ALLOWED_EXTENSIONS then
          pyLower (pathSuffix (filename.getD "")) else ".jpg") := by
  refine ⟨upload_fresh_eq hashFn st freshId filename contentType declaredSize
    contents text prediction now hv hfind, ?_, ?_, ?_⟩
  · intro ct e hct himg hmime
    subst hct
    rw [resolveExt]
    simp only [Option.getD_some, himg, if_pos, hmime, Option.map_some]
    rfl
  · intro ct hct himg hmime
    subst hct
    rw [resolveExt]
    simp only [Option.getD_some, himg, if_pos, hmime, Option.map_none]
    rfl
  · intro himg
    rw [resolveExt]
    simp only [himg, Bool.false_eq_true, if_false, if_pos hv.1]

/-- Witness for the amended C4: a fresh upload with content type
`image/gif` is stored under `<id>.jpg`. -/
theorem upload_extension_resolution_witness :
    passesValidation (some "scan.png") none [1] ∧
    upload (fun c => String.mk (List.replicate c.length 'a')) ⟨[], [], []⟩ "id1"
      (some "scan.png") (some "image/gif") none (some [1]) none none "t"
      false false =
      .ok ({ success := true, uploadId := "id1", predicted := none,
             message := "Upload successful" },
           { labels := dictSet [] "id1"
               (mkMetadata "id1"
                 ("id1" ++ resolveExt (some "image/gif") (some "scan.png"))
                 "scan.png" none none "t" 1 "a"),
             imagesDir := dirWrite []
               ("id1" ++ resolveExt (some "image/gif") (some "scan.png")) [1],
             approvedDir := [] }) :=
  ⟨by decide,
   (upload_extension_resolution (fun c => String.mk (List.replicate c.length 'a'))
     ⟨[], [], []⟩ "id1" (some "scan.png") (some "image/gif") none [1] none none
     "t" (by decide) (by rfl)).1⟩

/-! ### Claim C5: order of the validation rejections -/

/-- Claim C5 counterexample: an upload that is both empty and carries a
disallowed extension is rejected with the extension error, not the
claimed empty-content error — the filename extension is validated before
the content is even read. -/
theorem validation_order_counterexample :
    upload (fun c => String.mk (List.replicate c.length 'a')) ⟨[], [], []⟩ "id1"
      (some "notes.txt") none none (some []) none none "t" false false =
      .error .invalidType ∧
    UploadError.invalidType ≠ UploadError.emptyFile :=
  ⟨by rfl, by decide⟩

/-- Claim C5 (amended): rejections are tested in the order: missing
filename, then disallowed filename extension, then declared size, then
read failure, then empty content, then oversize content; in particular
an upload that is both empty and bears a disallowed extension yields the
extension rejection, and an upload whose declared size is too large and
whose read would fail yields the declared-size rejection. -/
theorem validation_order (hashFn : List Nat → String) (st : ServerState)
    (freshId : String) (filename contentType : Option String)
    (declaredSize : Option Nat) (readResult : Option (List Nat))
    (text prediction : Option String) (now : String) (w m : Bool) :
    (filename.getD "" = "" →
      upload hashFn st freshId filename contentType declaredSize readResult
        text prediction now w m = .error .noFilename) ∧
    (filename.getD "" ≠ "" →
     pyLower (pathSuffix (filename.getD "")) ∉ ALLOWED_EXTENSIONS →
      upload hashFn st freshId filename contentType declaredSize readResult
        text prediction now w m = .error .invalidType) ∧
    (filename.getD "" ≠ "" →
     pyLower (pathSuffix (filename.getD "")) ∈ ALLOWED_EXTENSIONS →
      MAX_FILE_SIZE < declaredSize.getD 0 →
      upload hashFn st freshId filename contentType declaredSize readResult
        text prediction now w m = .error .declaredTooLarge) ∧
    (filename.getD "" ≠ "" →
     pyLower (pathSuffix (filename.getD "")) ∈ ALLOWED_EXTENSIONS →
      ¬ MAX_FILE_SIZE < declaredSize.getD 0 →
      readResult = none →
      upload hashFn st freshId filename contentType declaredSize readResult
        text prediction now w m = .error .readFailed) ∧
    (∀ contents, filename.getD "" ≠ "" →
      pyLower (pathSuffix (filename.getD "")) ∈ ALLOWED_EXTENSIONS →
      ¬ MAX_FILE_SIZE < declaredSize.getD 0 →
      readResult = some contents → contents.length = 0 →
      upload hashFn st freshId filename contentType declaredSize readResult
        text prediction now w m = .error .emptyFile) ∧
    (∀ contents, filename.getD "" ≠ "" →
      pyLower (pathSuffix (filename.getD "")) ∈ ALLOWED_EXTENSIONS →
      ¬ MAX_FILE_SIZE < declaredSize.getD 0 →
      readResult = some contents → MAX_FILE_SIZE < contents.length →
      upload hashFn st freshId filename contentType declaredSize readResult
        text prediction now w m = .error .tooLarge) := by
  refine ⟨?_, ?_, ?_, ?_, ?_, ?_⟩
  · intro h1
    rw [upload.eq_def, if_pos h1]
  · intro h1 h2
    rw [upload.eq_def, if_neg h1, if_pos h2]
  · intro h1 h2 h3
    rw [upload.eq_def, if_neg h1, if_neg (not_not_intro h2), if_pos h3]
  · intro h1 h2 h3 hread
    subst hread
    rw [upload.eq_def, if_neg h1, if_neg (not_not_intro h2), if_neg h3]
  · intro contents h1 h2 h3 hread h4
    subst hread
    rw [upload, if_neg h1, if_neg (not_not_intro h2), if_neg h3]
    simp only [if_pos h4]
  · intro contents h1 h2 h3 hread h5
    subst hread
    have h4 : contents.length ≠ 0 := by
      intro hc
      rw [hc] at h5
      exact absurd h5 (by decide)
    rw [upload, if_neg h1, if_neg (not_not_intro h2), if_neg h3]
    simp only [if_neg h4, if_pos h5]

/-- Witness for the amended C5: five concrete rejection outcomes, each
produced through the ordering theorem — including a declared-size
rejection on a request whose read would also fail, and a read-failure
rejection once the declared size passes. -/
theorem validation_order_witness :
    upload (fun _ => "") ⟨[], [], []⟩ "id1" (some "") none none none none none
      "t" false false = .error .noFilename ∧
    upload (fun _ => "") ⟨[], [], []⟩ "id1" (some "notes.txt") none none
      (some []) none none "t" false false = .error .invalidType ∧
    upload (fun _ => "") ⟨[], [], []⟩ "id1" (some "a.png") none
      (some 10485761) none none none "t" false false
      = .error .declaredTooLarge ∧
    upload (fun _ => "") ⟨[], [], []⟩ "id1" (some "a.png") none none
      none none none "t" false false = .error .readFailed ∧
    upload (fun _ => "") ⟨[], [], []⟩ "id1" (some "a.png") none none
      (some []) none none "t" false false = .error .emptyFile := by
  refine ⟨?_, ?_, ?_, ?_, ?_⟩
  · exact (validation_order (fun _ => "") ⟨[], [], []⟩ "id1" (some "") none none
      none none none "t" false false).1 (by decide)
  · exact (validation_order (fun _ => "") ⟨[], [], []⟩ "id1" (some "notes.txt")
      none none (some []) none none "t" false false).2.1 (by decide) (by decide)
  · exact (validation_order (fun _ => "") ⟨[], [], []⟩ "id1" (some "a.png")
      none (some 10485761) none none none "t" false false).2.2.1 (by decide)
      (by decide) (by decide)
  · exact (validation_order (fun _ => "") ⟨[], [], []⟩ "id1" (some "a.png")
      none none none none none "t" false false).2.2.2.1 (by decide)
      (by decide) (by decide) (by rfl)
  · exact (validation_order (fun _ => "") ⟨[], [], []⟩ "id1" (some "a.png")
      none none (some []) none none "t" false false).2.2.2.2.1 [] (by decide)
      (by decide) (by decide) (by rfl) (by rfl)

/-! ### Claim C9: filename validation precedes any content access -/

/-- Claim C9: a missing or empty client filename, or a filename whose
lowercased extension is outside the allow-list, is rejected with the
corresponding validation error for every read outcome, every hash
function and every declared content type — in particular even when the
content type is an allowed image MIME type and even when the read would
fail; so a client filename with an allow-listed extension is a
precondition of every successful ingestion. -/
theorem filename_validation_precedes_read (hashFn : List Nat → String)
    (st : ServerState) (freshId : String) (filename contentType : Option String)
    (declaredSize : Option Nat) (readResult : Option (List Nat))
    (text prediction : Option String) (now : String) (w m : Bool)
    (hbad : filename.getD "" = "" ∨
      pyLower (pathSuffix (filename.getD "")) ∉ ALLOWED_EXTENSIONS) :
    upload hashFn st freshId filename contentType declaredSize readResult
      text prediction now w m =
      .error (if filename.getD "" = "" then .noFilename else .invalidType) := by
  by_cases h1 : filename.getD "" = ""
  · rw [upload.eq_def, if_pos h1, if_pos h1]
  · rcases hbad with h | h
    · exact absurd h h1
    · rw [upload.eq_def, if_neg h1, if_pos h, if_neg h1]

/-- Witness for C9: a `.txt` filename with the allowed MIME type
`image/png` and a failing read is still rejected as an invalid type. -/
theorem filename_validation_precedes_read_witness :
    ((some "b.txt" : Option String).getD "" = "" ∨
      pyLower (pathSuffix ((some "b.txt" : Option String).getD ""))
        ∉ ALLOWED_EXTENSIONS) ∧
    upload (fun _ => "") ⟨[], [], []⟩ "id1" (some "b.txt") (some "image/png")
      none none none none "t" false false =
      .error (if (some "b.txt" : Option String).getD "" = "" then .noFilename
              else .invalidType) :=
  ⟨by decide,
   filename_validation_precedes_read (fun _ => "") ⟨[], [], []⟩ "id1"
     (some "b.txt") (some "image/png") none none none none "t" false false
     (by decide)⟩

/-! ### Claim C8: corrupted store document is quarantined -/

/-- Claim C8 counterexample: when the quarantine rename itself raises,
the exception propagates out of the load — the claimed
quarantine-and-return-empty outcome is not reached and the load does
raise, aborting startup. -/
theorem loadLabels_rename_failure_counterexample :
    loadLabels .malformed true "20240101_000000" = .raised ∧
    LoadOutcome.raised ≠
      .ok [] (some (backupName "20240101_000000")) :=
  ⟨rfl, by decide⟩

/-- Claim C8 (amended): when the on-disk document fails to parse and the
quarantine rename succeeds, the load renames the file aside to the
timestamped backup name `labels.backup.<ts>.json` and returns an empty
store — the parse failure itself is never propagated; the only way any
load can raise is the unguarded quarantine rename itself failing on a
malformed document. -/
theorem loadLabels_malformed_quarantines (doc : DiskDoc)
    (renameFails : Bool) (ts : String) :
    loadLabels .malformed false ts = .ok [] (some (backupName ts)) ∧
    (loadLabels doc renameFails ts = .raised →
      doc = .malformed ∧ renameFails = true) := by
  refine ⟨rfl, ?_⟩
  cases doc <;> cases renameFails <;> simp [loadLabels]

/-- Witness for the amended C8: a failing quarantine rename on a
malformed document is the raising case. -/
theorem loadLabels_malformed_quarantines_witness :
    loadLabels .malformed true "t0" = .raised ∧
    (DiskDoc.malformed = DiskDoc.malformed ∧ (true : Bool) = true) :=
  ⟨rfl, (loadLabels_malformed_quarantines .malformed true "t0").2 rfl⟩

/-! ### Claim C7: the OCR confidence threshold is strict -/

/-- Claim C7 counterexample: a line whose confidence is exactly 0.5 is
dropped — the code keeps only lines with confidence strictly greater
than 0.5 — so the result is `none`, not the claimed `some "hi"`. -/
theorem runOCR_half_confidence_counterexample :
    runOCR true (some [("hi", (1 : ℚ)/2)]) = none ∧
    (none : Option String) ≠ some "hi" := by
  constructor
  · rw [show runOCR true (some [("hi", (1 : ℚ)/2)]) =
        (if (([("hi", (1 : ℚ)/2)].filter (fun q => (1 : ℚ)/2 < q.2)).map
              (fun q => q.1)).isEmpty
         then none
         else some (pyJoin " " (([("hi", (1 : ℚ)/2)].filter
           (fun q => (1 : ℚ)/2 < q.2)).map (fun q => q.1)))) from rfl]
    rw [List.filter_cons_of_neg (by simp)]
    rfl
  · simp

/-- Claim C7 (amended): with OCR enabled and an engine answer, the
predicted text is the space-joined concatenation of exactly those lines
whose confidence is strictly greater than 0.5, in the order returned
(`keptTexts`); when no line qualifies the result is `none`. -/
theorem runOCR_keeps_strictly_confident_lines (rs : List (String × ℚ)) :
    runOCR true (some rs) =
      (if keptTexts rs = [] then none
       else some (pyJoin " " (keptTexts rs))) ∧
    keptTexts rs = (rs.filter (fun p => (1 : ℚ)/2 < p.2)).map (fun p => p.1) := by
  have hk : ∀ l : List (String × ℚ),
      keptTexts l = (l.filter (fun p => (1 : ℚ)/2 < p.2)).map (fun p => p.1) := by
    intro l
    induction l with
    | nil => rfl
    | cons p t ih =>
      obtain ⟨tx, c⟩ := p
      by_cases hp : (1 : ℚ)/2 < c
      · rw [keptTexts, if_pos hp,
          List.filter_cons_of_pos (by simpa using hp), List.map_cons, ih]
      · rw [keptTexts, if_neg hp,
          List.filter_cons_of_neg (by simpa using hp), ih]
  refine ⟨?_, hk rs⟩
  cases rs with
  | nil => rfl
  | cons p t =>
    have hred : runOCR true (some (p :: t)) =
        (if (((p :: t).filter (fun q => (1 : ℚ)/2 < q.2)).map
              (fun q => q.1)).isEmpty
         then none
         else some (pyJoin " " (((p :: t).filter (fun q => (1 : ℚ)/2 < q.2)).map
           (fun q => q.1)))) := rfl
    rw [hred, ← hk (p :: t)]
    by_cases he : keptTexts (p :: t) = []
    · rw [if_pos (by simp [he]), if_pos he]
    · rw [if_neg (by simp [he]), if_neg he]

/-! ### Claim C10: val.txt is a copy of train.txt -/

/-- Claim C10: whenever `prepare_training_data` writes both output
files, the content of `val.txt` is identical to `train.txt` — a copy of
the training list, not a held-out split — and both are the joined
per-record lines, one `<filename>TAB<text>` line per successfully
prepared approved record, whose count is the returned success count. -/
theorem prepare_val_equals_train (labels : Labels) (approvedDir : Dir)
    (copyFails : String → Bool) (tFail vFail : Bool) (t v : String)
    (ht : (prepareTrainingData labels approvedDir copyFails tFail vFail).trainTxt
      = some t)
    (hv : (prepareTrainingData labels approvedDir copyFails tFail vFail).valTxt
      = some v) :
    v = t ∧
    t = pyJoin "\n" (trainList labels approvedDir copyFails) ∧
    (prepareTrainingData labels approvedDir copyFails tFail vFail).successful =
      (trainList labels approvedDir copyFails).length ∧
    (∀ line ∈ trainList labels approvedDir copyFails,
      ∃ e, e ∈ approvedOf labels ∧ line = e.file ++ "\t" ++ bestText e) := by
  cases tFail with
  | true => simp [prepareTrainingData] at ht
  | false =>
    cases vFail with
    | true => simp [prepareTrainingData] at hv
    | false =>
      simp only [prepareTrainingData, Bool.false_eq_true, if_false,
        Option.some.injEq] at ht hv
      refine ⟨hv ▸ ht ▸ rfl, ht.symm, rfl, ?_⟩
      intro line hline
      rw [trainList, List.mem_filterMap] at hline
      obtain ⟨e, he, hline⟩ := hline
      refine ⟨e, he, ?_⟩
      simp only [trainLine] at hline
      by_cases h1 : e.file = ""
      · rw [if_pos h1] at hline
        simp at hline
      rw [if_neg h1] at hline
      by_cases h2 : bestText e = ""
      · rw [if_pos h2] at hline
        simp at hline
      rw [if_neg h2] at hline
      by_cases h3 : validImageFile approvedDir e.file = false
      · rw [if_pos h3] at hline
        simp at hline
      rw [if_neg h3] at hline
      by_cases h4 : copyFails e.file = true
      · rw [if_pos h4] at hline
        simp at hline
      rw [if_neg h4] at hline
      exact (Option.some.inj hline).symm

/-- Witness for C10: one approved record with corrected text and its
file present; both outputs carry the same single line. -/
theorem prepare_val_equals_train_witness :
    (prepareTrainingData
        [("u1", { mkMetadata "u1" "u1.png" "a.png" none none "t" 1 "h" with
                    status := "approved", correctedText := "hello" })]
        [("u1.png", [1])] (fun _ => false) false false).trainTxt
      = some "u1.png\thello" ∧
    (prepareTrainingData
        [("u1", { mkMetadata "u1" "u1.png" "a.png" none none "t" 1 "h" with
                    status := "approved", correctedText := "hello" })]
        [("u1.png", [1])] (fun _ => false) false false).valTxt
      = some "u1.png\thello" ∧
    ("u1.png\thello" : String) = "u1.png\thello" := by
  refine ⟨by rfl, by rfl, ?_⟩
  exact (prepare_val_equals_train
    [("u1", { mkMetadata "u1" "u1.png" "a.png" none none "t" 1 "h" with
                status := "approved", correctedText := "hello" })]
    [("u1.png", [1])] (fun _ => false) false false
    "u1.png\thello" "u1.png\thello" (by rfl) (by rfl)).1

/-! ### Claim C3: the readiness policy -/

/-- Claim C3 counterexample: the claim covers every snapshot, but at the
empty store the code takes the no-data early return — the minimum-count
clause fails (0 approved < 100) yet no recommendation string is
produced, so "any failing clause appends a recommendation" is false
there. -/
theorem readiness_empty_store_counterexample :
    generateReadinessReport [] false = .noData ∧
    (approvedOf ([] : Labels)).length < 100 ∧
    recommendationsOf (generateReadinessReport [] false) = [] ∧
    readyFlag (generateReadinessReport [] false) = false :=
  ⟨rfl, by decide, rfl, rfl⟩

/-- Claim C3 (amended): for every NON-EMPTY store snapshot the readiness
flag is true iff all three clauses hold — at least 100 approved records,
at least 80% of approved records with non-empty (after strip) corrected
text, and at least 70% as many distinct normalized corrected texts as
approved records; each failing quality clause contributes its
quality-issue string, a failing minimum contributes a recommendation,
and any quality issue forces `ready = false` even when the minimum-count
clause passes.  On the empty store the report is instead the no-data
early return: `ready` is false but no recommendation or quality-issue
strings are produced.  The float thresholds `0.8` and `0.7` are read as
exact rationals. -/
theorem readiness_report_spec (labels : Labels) (tde : Bool)
    (hne : labels ≠ []) :
    (readyFlag (generateReadinessReport labels tde) = true ↔
      (100 ≤ (approvedOf labels).length ∧
       ((approvedOf labels).length : ℚ) * (8/10) ≤
         correctedCount (approvedOf labels) ∧
       ((approvedOf labels).length : ℚ) * (7/10) ≤
         uniqueTextCount (approvedOf labels))) ∧
    ((correctedCount (approvedOf labels) : ℚ) <
        ((approvedOf labels).length : ℚ) * (8/10) ↔
      "Less than 80% of approved samples have corrected text" ∈
        qualityIssuesOf (generateReadinessReport labels tde)) ∧
    ((uniqueTextCount (approvedOf labels) : ℚ) <
        ((approvedOf labels).length : ℚ) * (7/10) ↔
      "Low text diversity - many duplicate texts detected" ∈
        qualityIssuesOf (generateReadinessReport labels tde)) ∧
    ((approvedOf labels).length < 100 ↔
      recommendationsOf (generateReadinessReport labels tde) ≠ []) ∧
    (qualityIssuesOf (generateReadinessReport labels tde) ≠ [] →
      readyFlag (generateReadinessReport labels tde) = false) := by
  have hne' : labels.isEmpty = false := by
    cases labels with
    | nil => exact absurd rfl hne
    | cons p t => rfl
  have hqis : qualityIssuesOf (generateReadinessReport labels tde) =
      (if (correctedCount (approvedOf labels) : ℚ) <
          ((approvedOf labels).length : ℚ) * (8/10) then
        ["Less than 80% of approved samples have corrected text"] else []) ++
      (if (uniqueTextCount (approvedOf labels) : ℚ) <
          ((approvedOf labels).length : ℚ) * (7/10) then
        ["Low text diversity - many duplicate texts detected"] else []) := by
    rw [generateReadinessReport, if_neg (by simp [hne'])]
    rfl
  have hrecs : recommendationsOf (generateReadinessReport labels tde) =
      (if (approvedOf labels).length < 100 then
        ["Need at least 100 approved samples. Currently have " ++
          toString (approvedOf labels).length ++ "."] else []) := by
    rw [generateReadinessReport, if_neg (by simp [hne'])]
    rfl
  have hready : readyFlag (generateReadinessReport labels tde) =
      (decide (100 ≤ (approvedOf labels).length) &&
        ((if (correctedCount (approvedOf labels) : ℚ) <
            ((approvedOf labels).length : ℚ) * (8/10) then
          ["Less than 80% of approved samples have corrected text"] else []) ++
        (if (uniqueTextCount (approvedOf labels) : ℚ) <
            ((approvedOf labels).length : ℚ) * (7/10) then
          ["Low text diversity - many duplicate texts detected"] else
          [])).isEmpty) := by
    rw [generateReadinessReport, if_neg (by simp [hne'])]
    rfl
  have hstr : ("Less than 80% of approved samples have corrected text" : String)
      ≠ "Low text diversity - many duplicate texts detected" := by decide
  refine ⟨?_, ?_, ?_, ?_, ?_⟩
  · rw [hready]
    by_cases h1 : (correctedCount (approvedOf labels) : ℚ) <
        ((approvedOf labels).length : ℚ) * (8/10)
    · have hna : ¬ (((approvedOf labels).length : ℚ) * (8/10) ≤
          (correctedCount (approvedOf labels) : ℚ)) := not_le.mpr h1
      simp [h1, hna]
    · by_cases h2 : (uniqueTextCount (approvedOf labels) : ℚ) <
          ((approvedOf labels).length : ℚ) * (7/10)
      · have hnb : ¬ (((approvedOf labels).length : ℚ) * (7/10) ≤
            (uniqueTextCount (approvedOf labels) : ℚ)) := not_le.mpr h2
        simp [h1, h2, hnb]
      · simp [h1, h2, not_lt.mp h1, not_lt.mp h2]
  · rw [hqis]
    by_cases h1 : (correctedCount (approvedOf labels) : ℚ) <
        ((approvedOf labels).length : ℚ) * (8/10)
    · simp [h1]
    · by_cases h2 : (uniqueTextCount (approvedOf labels) : ℚ) <
          ((approvedOf labels).length : ℚ) * (7/10)
      · simp [h1, h2, hstr]
      · simp [h1, h2]
  · rw [hqis]
    by_cases h2 : (uniqueTextCount (approvedOf labels) : ℚ) <
        ((approvedOf labels).length : ℚ) * (7/10)
    · simp [h2]
    · by_cases h1 : (correctedCount (approvedOf labels) : ℚ) <
          ((approvedOf labels).length : ℚ) * (8/10)
      · simp [h1, h2, Ne.symm hstr]
      · simp [h1, h2]
  · rw [hrecs]
    by_cases h3 : (approvedOf labels).length < 100
    · simp [h3]
    · simp [h3]
  · rw [hqis, hready]
    intro h
    by_cases h1 : (correctedCount (approvedOf labels) : ℚ) <
        ((approvedOf labels).length : ℚ) * (8/10)
    · simp [h1]
    · by_cases h2 : (uniqueTextCount (approvedOf labels) : ℚ) <
          ((approvedOf labels).length : ℚ) * (7/10)
      · simp [h1, h2]
      · rw [if_neg h1, if_neg h2] at h
        exact absurd rfl h

/-- Witness for C3: a one-record store (no approved records yet), where
the readiness equivalence is instantiated concretely. -/
theorem readiness_report_spec_witness :
    ([("u1", mkMetadata "u1" "u1.png" "a.png" none none "t" 1 "h")] : Labels)
      ≠ [] ∧
    (readyFlag (generateReadinessReport
        [("u1", mkMetadata "u1" "u1.png" "a.png" none none "t" 1 "h")] false)
      = true ↔
      (100 ≤ (approvedOf
          [("u1", mkMetadata "u1" "u1.png" "a.png" none none "t" 1 "h")]).length ∧
       ((approvedOf
          [("u1", mkMetadata "u1" "u1.png" "a.png" none none "t" 1 "h")]).length
          : ℚ) * (8/10) ≤
         correctedCount (approvedOf
          [("u1", mkMetadata "u1" "u1.png" "a.png" none none "t" 1 "h")]) ∧
       ((approvedOf
          [("u1", mkMetadata "u1" "u1.png" "a.png" none none "t" 1 "h")]).length
          : ℚ) * (7/10) ≤
         uniqueTextCount (approvedOf
          [("u1", mkMetadata "u1" "u1.png" "a.png" none none "t" 1 "h")]))) :=
  ⟨by decide,
   (readiness_report_spec
     [("u1", mkMetadata "u1" "u1.png" "a.png" none none "t" 1 "h")] false
     (by decide)).1⟩

end OCRService
